import Mathlib

/-!
Verification development for the payer-plan-compare extraction pipeline.

The repository contains a primary service module, `src/services/extractionApi.ts`,
and several near-duplicate variants of the same module.  This file shallowly
embeds the fragments of those modules that the stated properties concern:

* `Model` — the JSON value model shared by all variants, the JavaScript
  string coercion `String(v)`, and the record/comparison data types from
  `extractionApi.ts`.
* `ExtractionApi` — the primary module `src/services/extractionApi.ts`
  (field lists, `callOpenAIWithPDF`, `extractDataApi`, `compareDataApi`).
* `Part000` — the variant service whose constants file declares the
  20-field QLM list and whose `callOpenAIWithPDF` validates the parsed
  response (zero-key and no-expected-field checks).
* `Part002` — the variant whose comparator uses strict equality and treats
  a field as missing only when both sides are absent.

Network transport (fetch) and the JavaScript builtin `JSON.parse` are external
to the embedding: an environment record supplies the outcome of each network
call, with `ParseOutcome.parsed j` meaning the textual model output parsed to
the JSON value `j`.  The list of issued network calls is returned alongside the
result so that "no network call before validation" is a provable statement.
-/

namespace Model

/-- JSON values as produced by `JSON.parse`.  Numbers are modelled as integers;
no property in this development depends on non-integer number formatting.
Objects carry their key/value pairs in insertion order; `JSON.parse` output has
unique keys (later duplicates overwrite earlier ones during parsing). -/
inductive Json where
  | null : Json
  | bool (b : Bool) : Json
  | num (n : Int) : Json
  | str (s : String) : Json
  | arr (elems : List Json) : Json
  | obj (kvs : List (String × Json)) : Json

mutual

/-- JavaScript string coercion `String(v)` on JSON values: `String(null)` is
"null", booleans print as "true"/"false", a string is itself, an array joins
its elements with "," (with `null` elements contributing the empty string, as
`Array.prototype.join` does), and a plain object prints as "[object Object]". -/
def jsToString : Json → String
  | Json.null => "null"
  | Json.bool b => cond b "true" "false"
  | Json.num n => toString n
  | Json.str s => s
  | Json.arr elems => jsArrJoin elems
  | Json.obj _ => "[object Object]"

/-- The body of `Array.prototype.join(",")`: elements are coerced with
`String`, except `null` (and `undefined`, absent from parsed JSON) which
contribute the empty string. -/
def jsArrJoin : List Json → String
  | [] => ""
  | [Json.null] => ""
  | [x] => jsToString x
  | Json.null :: rest => "," ++ jsArrJoin rest
  | x :: rest => jsToString x ++ "," ++ jsArrJoin rest

end

/-- The JavaScript strict comparison `v === ""` on a JSON value: true exactly
for the empty string value. -/
def jsIsEmptyString : Json → Bool
  | Json.str s => s == ""
  | _ => false

/-- Property lookup on the pair list of a JSON object (first match; parsed
objects have unique keys). -/
def lookupJson : List (String × Json) → String → Option Json
  | [], _ => none
  | (k, v) :: rest, key => if k = key then some v else lookupJson rest key

/-- JavaScript property access `raw[key]` on a parsed JSON value, with `none`
standing for `undefined`.  Access on non-object values yields `undefined` for
the field names used here (string index and prototype properties are outside
the modelled fragment, and `null` would throw — no claim exercises that). -/
def jsGet : Json → String → Option Json
  | Json.obj kvs, key => lookupJson kvs key
  | _, _ => none

/-- Character-list prefix test used to define the substring test below. -/
def listStartsWith : List Char → List Char → Bool
  | _, [] => true
  | [], _ :: _ => false
  | a :: as, b :: bs => a == b && listStartsWith as bs

/-- Character-list substring test: does `sub` occur contiguously in `s`. -/
def listHasSub : List Char → List Char → Bool
  | [], sub => listStartsWith [] sub
  | a :: rest, sub => listStartsWith (a :: rest) sub || listHasSub rest sub

/-- JavaScript `String.prototype.includes` restricted to the ASCII strings the
code uses: substring test. -/
def jsIncludes (s sub : String) : Bool :=
  listHasSub s.toList sub.toList

/-- Whitespace as trimmed by `String.prototype.trim`, restricted to the ASCII
whitespace characters (the Unicode space classes JS also trims never appear in
the strings of this development). -/
def isJsWhitespace (c : Char) : Bool :=
  c == ' ' || c == '\t' || c == '\n' || c == '\r' || c == '\x0b' || c == '\x0c'

/-- JavaScript `String.prototype.trim`: drop leading and trailing whitespace. -/
def jsTrim (s : String) : String :=
  String.mk (((s.toList.dropWhile isJsWhitespace).reverse.dropWhile isJsWhitespace).reverse)

/-- The part of a browser `File` object the embedded code reads: `file.name`,
`file.type` (declared media type) and the byte length of its contents. -/
structure File where
  name : String
  type : String
  size : Nat

/-- The two payer plans of `PAYER_PLANS`. -/
inductive PayerPlan where
  | QLM : PayerPlan
  | ALKOOT : PayerPlan
deriving DecidableEq

/-- `ExtractedData`: the normalized record, an object whose keys are laid down
in field-list order; `none` is the explicit absence marker (JS `null`). -/
abbrev ExtractedData := List (String × Option String)

/-- Tri-state comparison status. -/
inductive Status where
  | same : Status
  | different : Status
  | missing : Status
deriving DecidableEq

/-- `ComparisonResult` from `extractionApi.ts`. -/
structure ComparisonResult where
  field : String
  file1Value : Option String
  file2Value : Option String
  status : Status
deriving DecidableEq

/-- Record access `data[field]` on a normalized record (absent key behaves
like the absence marker, as `undefined` does in every use site). -/
def edGet : ExtractedData → String → Option String
  | [], _ => none
  | (k, v) :: rest, key => if k = key then v else edGet rest key

/-- The per-field normalization of `extractDataApi`
(`val == null || val === "" ? null : String(val)`), applied to the value of
`raw[key]` (`none` = `undefined`). -/
def normalizeVal : Option Json → Option String
  | none => none
  | some Json.null => none
  | some v => if jsIsEmptyString v then none else some (jsToString v)

/-- The normalization loop of `extractDataApi` (present identically in the
primary module and in the `Part000` variant): one output pair per expected
field, in field-list order. -/
def normalizeRaw (fields : List String) (raw : Json) : ExtractedData :=
  fields.map (fun key => (key, normalizeVal (jsGet raw key)))

/-- The record that maps every field of a list to the absence marker; the
output of the normalization loop on the empty raw object. -/
def allNoneRecord (fields : List String) : ExtractedData :=
  fields.map (fun key => (key, none))

/-- Outcome of running `JSON.parse` on the textual model output: failure
carries the engine error message, success the parsed value. -/
inductive ParseOutcome where
  | unparsable (msg : String) : ParseOutcome
  | parsed (j : Json) : ParseOutcome

/-- A network call issued by the pipeline: the file upload or the generation
request. -/
inductive NetCall where
  | upload : NetCall
  | generate : NetCall
deriving DecidableEq

end Model

namespace ExtractionApi

open Model

/-- `QLM_FIELDS` from `src/services/extractionApi.ts`. -/
def QLM_FIELDS : List String := [
  "Insured",
  "Policy No",
  "Period of Insurance",
  "Plan",
  "For Eligible Medical Expenses at Al Ahli Hospital",
  "Inpatient Deductible",
  "Deductible per each outpatient consultation",
  "Vaccination of children",
  "Psychiatric Treatment",
  "Dental Copayment",
  "Maternity Copayment",
  "Optical Copayment"]

/-- `ALKOOT_FIELDS` from `src/services/extractionApi.ts`. -/
def ALKOOT_FIELDS : List String := [
  "Policy Number",
  "Category",
  "Effective Date",
  "Expiry Date",
  "Provider-specific co-insurance at Al Ahli Hospital",
  "Co-insurance on all inpatient treatment",
  "Deductible on consultation",
  "Vaccination & Immunization",
  "Psychiatric treatment & Psychotherapy",
  "Pregnancy & Childbirth",
  "Dental Benefit",
  "Optical Benefit"]

/-- `FIELD_MAPPINGS` from `src/services/extractionApi.ts`.  The TypeScript
index type `PayerPlan` makes the mapping total, so the defensive
`if (!fields)` checks in the callers can never fire. -/
def FIELD_MAPPINGS : PayerPlan → List String
  | PayerPlan.QLM => QLM_FIELDS
  | PayerPlan.ALKOOT => ALKOOT_FIELDS

/-- Outcome of the generation call of `src/services/extractionApi.ts`, after
the code has assembled `textOutput` from `output_text` or the structured
content blocks: either no textual output was found, or a text whose
`JSON.parse` outcome is given. -/
inductive GenOut where
  | noText : GenOut
  | text (p : ParseOutcome) : GenOut

/-- Environment supplying the outcomes of the two network calls of
`callOpenAIWithPDF`: the file upload (`Except.error` a thrown transport or
non-2xx error message, `Except.ok none` a 2xx response missing `id`,
`Except.ok (some fid)` a file id) and the generation request. -/
structure NetEnv where
  uploadResult : Except String (Option String)
  generateResult : Except String GenOut

/-- `callOpenAIWithPDF` of `src/services/extractionApi.ts`: API-key and file
type validation, then the upload and generation calls, then `JSON.parse` on
the textual output.  The prompt strings built from `fields` are sent to the
external service and do not affect the embedded control flow.  The returned
list records the network calls issued. -/
def callOpenAIWithPDF (apiKey : String) (file : File) (_fields : List String)
    (env : NetEnv) : Except String Json × List NetCall :=
  if apiKey = "" then
    (Except.error "Missing API key: Please provide your OpenAI API key.", [])
  else if !(jsIncludes file.type "pdf") then
    (Except.error "Invalid file type: Only PDF files are supported", [])
  else
    match env.uploadResult with
    | Except.error e => (Except.error e, [NetCall.upload])
    | Except.ok none =>
        (Except.error "File upload failed: missing file id from OpenAI response",
         [NetCall.upload])
    | Except.ok (some _fileId) =>
        match env.generateResult with
        | Except.error e => (Except.error e, [NetCall.upload, NetCall.generate])
        | Except.ok GenOut.noText =>
            (Except.error "Invalid document: No textual output received from the model",
             [NetCall.upload, NetCall.generate])
        | Except.ok (GenOut.text (ParseOutcome.unparsable _msg)) =>
            (Except.error "Invalid document: Failed to parse extracted data from PDF",
             [NetCall.upload, NetCall.generate])
        | Except.ok (GenOut.text (ParseOutcome.parsed j)) =>
            (Except.ok j, [NetCall.upload, NetCall.generate])

/-- `extractDataApi` of `src/services/extractionApi.ts`: early file-type
validation, the call sequence, then the normalization loop over the plan's
field list (`result[key] = val == null || val === "" ? null : String(val)`). -/
def extractDataApi (file : File) (payerPlan : PayerPlan) (apiKey : String)
    (env : NetEnv) : Except String ExtractedData × List NetCall :=
  if !(jsIncludes file.type "pdf") then
    (Except.error "Invalid file type: Only PDF files are supported", [])
  else
    match callOpenAIWithPDF apiKey file (FIELD_MAPPINGS payerPlan) env with
    | (Except.error e, calls) => (Except.error e, calls)
    | (Except.ok raw, calls) =>
        (Except.ok (normalizeRaw (FIELD_MAPPINGS payerPlan) raw), calls)

/-- The comparison loop of `compareDataApi` (`fields.map(...)`): per field,
read both values, then
`status = "different"; if (v1 == null || v2 == null) status = "missing";
else if (String(v1).trim() === String(v2).trim()) status = "same";`.
`String(v)` on an already-string value is the identity. -/
def compareRecords (fields : List String) (data1 data2 : ExtractedData) :
    List ComparisonResult :=
  fields.map (fun field =>
    let v1 := edGet data1 field
    let v2 := edGet data2 field
    let status :=
      match v1, v2 with
      | none, _ => Status.missing
      | _, none => Status.missing
      | some s1, some s2 =>
          if jsTrim s1 = jsTrim s2 then Status.same else Status.different
    { field := field, file1Value := v1, file2Value := v2, status := status })

/-- `compareDataApi` of `src/services/extractionApi.ts`: validate both file
types, run the two extractions (issued concurrently via `Promise.all`; the
combined call trace is returned, and when both extractions fail the model
reports the first file's error — `Promise.all` settles with whichever
rejection lands first, a timing detail no property here depends on), then the
comparison loop. -/
def compareDataApi (file1 file2 : File) (payerPlan : PayerPlan) (apiKey : String)
    (env1 env2 : NetEnv) : Except String (List ComparisonResult) × List NetCall :=
  if !(jsIncludes file1.type "pdf") || !(jsIncludes file2.type "pdf") then
    (Except.error "Invalid file type: Both files must be PDFs", [])
  else
    match extractDataApi file1 payerPlan apiKey env1,
          extractDataApi file2 payerPlan apiKey env2 with
    | (Except.error e, c1), (_, c2) => (Except.error e, c1 ++ c2)
    | (Except.ok _, c1), (Except.error e, c2) => (Except.error e, c1 ++ c2)
    | (Except.ok d1, c1), (Except.ok d2, c2) =>
        (Except.ok (compareRecords (FIELD_MAPPINGS payerPlan) d1 d2), c1 ++ c2)

end ExtractionApi

namespace Part000

open Model

/-- `QLM_FIELDS` of the variant constants file paired with the `Part000`
service (the 20-field QLM list). -/
def QLM_FIELDS : List String := [
  "Patient Name",
  "Patient ID",
  "Date of Birth",
  "Gender",
  "Insurance Provider",
  "Policy Number",
  "Group Number",
  "Member ID",
  "Primary Care Physician",
  "Specialist",
  "Date of Service",
  "Procedure Code",
  "Diagnosis Code",
  "Treatment Description",
  "Total Amount",
  "Copay Amount",
  "Deductible",
  "Coinsurance",
  "Prior Authorization",
  "Claim Number"]

/-- `ALKOOT_FIELDS` of the same variant constants file. -/
def ALKOOT_FIELDS : List String := [
  "Beneficiary Name",
  "National ID",
  "Civil ID",
  "Date of Birth",
  "Gender",
  "Nationality",
  "Employer",
  "Employment Date",
  "Department",
  "Position",
  "Salary",
  "Benefits Package",
  "Medical Coverage",
  "Family Members",
  "Emergency Contact",
  "Address",
  "Phone Number",
  "Email",
  "Bank Account",
  "Status"]

/-- `FIELD_MAPPINGS` of the variant constants file. -/
def FIELD_MAPPINGS : PayerPlan → List String
  | PayerPlan.QLM => QLM_FIELDS
  | PayerPlan.ALKOOT => ALKOOT_FIELDS

/-- `Object.keys` on a parsed JSON value: own enumerable string keys — the
pairs of an object, the element indices of an array, the character indices of
a string, and nothing for primitives. -/
def objKeys : Json → List String
  | Json.obj kvs => kvs.map Prod.fst
  | Json.arr elems => (List.range elems.length).map (fun i => toString i)
  | Json.str s => (List.range s.length).map (fun i => toString i)
  | _ => []

/-- The parse-and-validate step of the `Part000` variant's
`callOpenAIWithPDF`.  Inside one `try` block the code parses the content,
throws an unreadable-document error when the parsed value has zero keys, and
throws a no-requested-fields error when no expected field name occurs among
the keys; the surrounding `catch` re-wraps whichever error was thrown
(including the two validation errors themselves) with the prefix
`Invalid document: Failed to parse extracted data from PDF: `. -/
def parseValidate (fields : List String) (p : ParseOutcome) : Except String Json :=
  match p with
  | ParseOutcome.unparsable msg =>
      Except.error ("Invalid document: Failed to parse extracted data from PDF: " ++ msg)
  | ParseOutcome.parsed j =>
      if (objKeys j).length = 0 then
        Except.error ("Invalid document: Failed to parse extracted data from PDF: " ++
          "Invalid document: The PDF file appears to be corrupted or unreadable.")
      else if !((objKeys j).any (fun key => fields.contains key)) then
        Except.error ("Invalid document: Failed to parse extracted data from PDF: " ++
          "No requested fields found in the document. The PDF may not contain the expected data.")
      else
        Except.ok j

/-- Outcome of the chat-completions call of the `Part000` variant, after a 2xx
response: either `data.choices[0].message.content` is absent (the code then
parses the fallback text whose parse is the empty object) or present with the
given `JSON.parse` outcome. -/
inductive ChatOut where
  | noContent : ChatOut
  | content (p : ParseOutcome) : ChatOut

/-- Environment for the `Part000` variant: outcome of the upload call (this
variant reads `uploadedFile.id` without a missing-id check) and of the chat
call (`Except.error` carries the message selected by the variant's non-2xx
error mapping, which happens upstream of the embedded fragment). -/
structure NetEnv where
  uploadResult : Except String String
  chatResult : Except String ChatOut

/-- `callOpenAIWithPDF` of the `Part000` variant: file-type validation, the
empty-file integrity check on the read bytes, upload, chat call, then
`parseValidate` on the content (the absent-content fallback text parses to the
empty object). -/
def callOpenAIWithPDF (_apiKey : String) (file : File) (fields : List String)
    (env : NetEnv) : Except String Json × List NetCall :=
  if !(jsIncludes file.type "pdf") then
    (Except.error "Invalid file type: Only PDF files are supported", [])
  else if file.size = 0 then
    (Except.error "Invalid document: The PDF file is empty.", [])
  else
    match env.uploadResult with
    | Except.error e => (Except.error e, [NetCall.upload])
    | Except.ok _fileId =>
        match env.chatResult with
        | Except.error e => (Except.error e, [NetCall.upload, NetCall.generate])
        | Except.ok ChatOut.noContent =>
            (parseValidate fields (ParseOutcome.parsed (Json.obj [])),
             [NetCall.upload, NetCall.generate])
        | Except.ok (ChatOut.content p) =>
            (parseValidate fields p, [NetCall.upload, NetCall.generate])

/-- `extractDataApi` of the `Part000` variant: file-type validation, the call
sequence, then the normalization loop (textually identical to the primary
module's loop, hence the shared `Model.normalizeRaw`). -/
def extractDataApi (file : File) (payerPlan : PayerPlan) (apiKey : String)
    (env : NetEnv) : Except String ExtractedData × List NetCall :=
  if !(jsIncludes file.type "pdf") then
    (Except.error "Invalid file type: Only PDF files are supported", [])
  else
    match callOpenAIWithPDF apiKey file (FIELD_MAPPINGS payerPlan) env with
    | (Except.error e, calls) => (Except.error e, calls)
    | (Except.ok raw, calls) =>
        (Except.ok (normalizeRaw (FIELD_MAPPINGS payerPlan) raw), calls)

end Part000

namespace Part002

open Model

/-- The normalization loop of the `Part002` variant's `extractDataApi`
(`const val = Object.prototype.hasOwnProperty.call(json, key) ? json[key] : null;
normalized[key] = val === undefined ? null : (val as string | null);`):
an absent key is filled with null, and a present raw value is stored verbatim
— no emptiness check and no text coercion (the `val === undefined` guard
cannot fire for a value found by `hasOwnProperty` in parsed JSON).  A stored
JSON `null` and the filled-in `null` are the same JavaScript value, both
represented here as `none`. -/
def normalizeRaw (fields : List String) (json : Json) : List (String × Option Json) :=
  fields.map (fun key =>
    (key,
     match jsGet json key with
     | none => none
     | some Json.null => none
     | some v => some v))

/-- The comparison loop of the `Part002` variant's `compareDataApi`
(`fields.map(...)`): per field, `v1 = data1[field] ?? null`,
`v2 = data2[field] ?? null`, then
`status = "same"; if (v1 === null && v2 === null) status = "missing";
else if (v1 !== v2) status = "different";` — strict equality, no trimming,
and "missing" only when both sides are absent. -/
def compareRecords (fields : List String) (data1 data2 : ExtractedData) :
    List ComparisonResult :=
  fields.map (fun field =>
    let v1 := edGet data1 field
    let v2 := edGet data2 field
    let status :=
      match v1, v2 with
      | none, none => Status.missing
      | _, _ => if v1 = v2 then Status.same else Status.different
    { field := field, file1Value := v1, file2Value := v2, status := status })

end Part002

open Model

/-- Helper: a successful extraction implies the file passed the PDF media-type
check (the first validation of `extractDataApi`). -/
theorem extract_ok_pdf {file : File} {plan : PayerPlan} {apiKey : String}
    {env : ExtractionApi.NetEnv} {d : ExtractedData} {c : List NetCall}
    (h : ExtractionApi.extractDataApi file plan apiKey env = (Except.ok d, c)) :
    jsIncludes file.type "pdf" = true := by
  cases hb : jsIncludes file.type "pdf"
  · rw [ExtractionApi.extractDataApi, hb] at h
    simp at h
  · rfl

/-- C1: whenever `extractDataApi` returns a record, the record's key list is
exactly the plan's field list — every expected field appears, no other key
does, whatever keys the raw response contained. -/
theorem extractDataApi_key_set (file : File) (plan : PayerPlan) (apiKey : String)
    (env : ExtractionApi.NetEnv) (record : ExtractedData) (calls : List NetCall)
    (h : ExtractionApi.extractDataApi file plan apiKey env = (Except.ok record, calls)) :
    record.map Prod.fst = ExtractionApi.FIELD_MAPPINGS plan := by
  rw [ExtractionApi.extractDataApi] at h
  split at h
  · simp at h
  · split at h
    · simp at h
    · simp at h
      obtain ⟨h1, _⟩ := h
      subst h1
      simp [normalizeRaw, List.map_map, Function.comp_def]

/-- Witness for C1: a QLM extraction whose raw response has one extra key and
one expected key still yields exactly the QLM field list as keys. -/
theorem extractDataApi_key_set_witness :
    ExtractionApi.extractDataApi ⟨"a.pdf", "application/pdf", 4⟩ PayerPlan.QLM "k"
      ⟨Except.ok (some "fid"),
       Except.ok (ExtractionApi.GenOut.text (ParseOutcome.parsed
         (Json.obj [("Extra Key", Json.str "x"), ("Insured", Json.str "John")])))⟩
      = (Except.ok (normalizeRaw ExtractionApi.QLM_FIELDS
          (Json.obj [("Extra Key", Json.str "x"), ("Insured", Json.str "John")])),
         [NetCall.upload, NetCall.generate])
    ∧ (normalizeRaw ExtractionApi.QLM_FIELDS
        (Json.obj [("Extra Key", Json.str "x"), ("Insured", Json.str "John")])).map Prod.fst
      = ExtractionApi.FIELD_MAPPINGS PayerPlan.QLM :=
  ⟨rfl,
   extractDataApi_key_set ⟨"a.pdf", "application/pdf", 4⟩ PayerPlan.QLM "k"
     ⟨Except.ok (some "fid"),
      Except.ok (ExtractionApi.GenOut.text (ParseOutcome.parsed
        (Json.obj [("Extra Key", Json.str "x"), ("Insured", Json.str "John")])))⟩
     (normalizeRaw ExtractionApi.QLM_FIELDS
       (Json.obj [("Extra Key", Json.str "x"), ("Insured", Json.str "John")]))
     [NetCall.upload, NetCall.generate] rfl⟩

/-- Counterexample for C2: in the `Part002` variant comparator — cited by the
claim — a field absent on exactly one side gets status "different", not
"missing". -/
theorem one_absent_gives_different_in_part002 :
    Part002.compareRecords ["Policy No"]
      [("Policy No", some "123")] [("Policy No", none)]
    = [{ field := "Policy No", file1Value := some "123", file2Value := none,
         status := Status.different }] := by decide

/-- C2 (amended): in the primary `compareDataApi` of
`src/services/extractionApi.ts`, a field with at least one absent side has
status "missing" (missing takes priority over different when exactly one side
is absent); in the `Part002` variant, "missing" only when both sides are
absent, and exactly one absent side gives "different". -/
theorem missing_status_by_variant :
    (∀ (fields : List String) (d1 d2 : ExtractedData) (r : ComparisonResult),
        r ∈ ExtractionApi.compareRecords fields d1 d2 →
        r.file1Value = none ∨ r.file2Value = none → r.status = Status.missing)
  ∧ (∀ (fields : List String) (d1 d2 : ExtractedData) (r : ComparisonResult),
        r ∈ Part002.compareRecords fields d1 d2 →
        (r.file1Value = none ∧ r.file2Value = none → r.status = Status.missing)
        ∧ (r.file1Value = none ∧ r.file2Value ≠ none → r.status = Status.different)
        ∧ (r.file1Value ≠ none ∧ r.file2Value = none → r.status = Status.different)) := by
  constructor
  · intro fields d1 d2 r hr habs
    obtain ⟨f, hf, rfl⟩ := List.mem_map.mp hr
    rcases h1 : edGet d1 f with _ | s1 <;> rcases h2 : edGet d2 f with _ | s2 <;>
      simp_all [ExtractionApi.compareRecords]
  · intro fields d1 d2 r hr
    obtain ⟨f, hf, rfl⟩ := List.mem_map.mp hr
    rcases h1 : edGet d1 f with _ | s1 <;> rcases h2 : edGet d2 f with _ | s2 <;>
      simp_all [Part002.compareRecords]

/-- Witness for C2: the primary comparator on a pair whose first side is
absent produces status "missing". -/
theorem missing_status_by_variant_witness :
    ({ field := "Policy No", file1Value := none, file2Value := some "5",
       status := Status.missing } : ComparisonResult)
      ∈ ExtractionApi.compareRecords ["Policy No"]
          [("Policy No", none)] [("Policy No", some "5")]
    ∧ ({ field := "Policy No", file1Value := none, file2Value := some "5",
         status := Status.missing } : ComparisonResult).status = Status.missing :=
  ⟨by decide,
   missing_status_by_variant.1 ["Policy No"]
     [("Policy No", none)] [("Policy No", some "5")]
     { field := "Policy No", file1Value := none, file2Value := some "5",
       status := Status.missing }
     (by decide) (Or.inl rfl)⟩

/-- Counterexample for C3: in the `Part002` variant comparator — cited by the
claim — the values "123" and "123 " compare as "different": that variant uses
strict equality without trimming. -/
theorem trailing_space_gives_different_in_part002 :
    Part002.compareRecords ["Policy No"]
      [("Policy No", some "123")] [("Policy No", some "123 ")]
    = [{ field := "Policy No", file1Value := some "123",
         file2Value := some "123 ", status := Status.different }] := by decide

/-- C3 (amended): when both sides are present, the primary `compareDataApi` of
`src/services/extractionApi.ts` gives "same" exactly when the values are equal
after trimming leading and trailing whitespace and "different" otherwise (so
"123" and "123 " compare as "same" there); the `Part002` variant instead uses
untrimmed strict equality. -/
theorem same_status_by_variant :
    (∀ (fields : List String) (d1 d2 : ExtractedData) (r : ComparisonResult)
        (s1 s2 : String),
        r ∈ ExtractionApi.compareRecords fields d1 d2 →
        r.file1Value = some s1 → r.file2Value = some s2 →
        r.status = (if jsTrim s1 = jsTrim s2 then Status.same else Status.different))
  ∧ (∀ (fields : List String) (d1 d2 : ExtractedData) (r : ComparisonResult)
        (s1 s2 : String),
        r ∈ Part002.compareRecords fields d1 d2 →
        r.file1Value = some s1 → r.file2Value = some s2 →
        r.status = (if s1 = s2 then Status.same else Status.different)) := by
  constructor
  · intro fields d1 d2 r s1 s2 hr hv1 hv2
    obtain ⟨f, hf, rfl⟩ := List.mem_map.mp hr
    rcases h1 : edGet d1 f with _ | t1 <;> rcases h2 : edGet d2 f with _ | t2 <;>
      simp_all [ExtractionApi.compareRecords]
  · intro fields d1 d2 r s1 s2 hr hv1 hv2
    obtain ⟨f, hf, rfl⟩ := List.mem_map.mp hr
    rcases h1 : edGet d1 f with _ | t1 <;> rcases h2 : edGet d2 f with _ | t2 <;>
      simp_all [Part002.compareRecords]

/-- Witness for C3: in the primary comparator, "123" against "123 " lands in
the trimmed-equality branch and yields "same". -/
theorem same_status_by_variant_witness :
    ({ field := "Policy No", file1Value := some "123", file2Value := some "123 ",
       status := Status.same } : ComparisonResult)
      ∈ ExtractionApi.compareRecords ["Policy No"]
          [("Policy No", some "123")] [("Policy No", some "123 ")]
    ∧ ({ field := "Policy No", file1Value := some "123", file2Value := some "123 ",
         status := Status.same } : ComparisonResult).status
      = (if jsTrim "123" = jsTrim "123 " then Status.same else Status.different) :=
  ⟨by decide,
   same_status_by_variant.1 ["Policy No"]
     [("Policy No", some "123")] [("Policy No", some "123 ")]
     { field := "Policy No", file1Value := some "123", file2Value := some "123 ",
       status := Status.same }
     "123" "123 " (by decide) rfl rfl⟩

/-- Counterexample for C4: a raw value that is an empty array is neither
`== null` nor `=== ""`, so the primary `extractDataApi` stores
`String([])`, which is the empty string — the normalized record does contain
an empty-string value. -/
theorem empty_array_yields_empty_string :
    ExtractionApi.extractDataApi ⟨"a.pdf", "application/pdf", 10⟩ PayerPlan.QLM "k"
      ⟨Except.ok (some "fid"),
       Except.ok (ExtractionApi.GenOut.text (ParseOutcome.parsed
         (Json.obj [("Insured", Json.arr [])])))⟩
    = (Except.ok [("Insured", some ""),
        ("Policy No", none), ("Period of Insurance", none), ("Plan", none),
        ("For Eligible Medical Expenses at Al Ahli Hospital", none),
        ("Inpatient Deductible", none),
        ("Deductible per each outpatient consultation", none),
        ("Vaccination of children", none), ("Psychiatric Treatment", none),
        ("Dental Copayment", none), ("Maternity Copayment", none),
        ("Optical Copayment", none)],
       [NetCall.upload, NetCall.generate]) := by rfl

/-- C4 (amended): in the primary normalization loop of
`src/services/extractionApi.ts`, a field value is the absence marker exactly
when the raw value is absent, null, or the empty string, a non-empty string
raw value is kept verbatim, and an empty-string value can appear only when
the raw value is a non-null, non-string JSON value whose JavaScript text
coercion is empty (such as an empty array); in the `Part002` variant's loop,
only absent and null raw values become the absence marker and every other raw
value — the empty string included — is stored verbatim. -/
theorem normalize_empty_amended :
    (∀ (fields : List String) (raw : Json) (key : String) (v : Option String),
        (key, v) ∈ normalizeRaw fields raw →
        ((v = none ↔ (jsGet raw key = none ∨ jsGet raw key = some Json.null
                      ∨ jsGet raw key = some (Json.str "")))
         ∧ (∀ s : String, jsGet raw key = some (Json.str s) → s ≠ "" → v = some s)
         ∧ (v = some "" →
             ∃ j : Json, jsGet raw key = some j ∧ j ≠ Json.null
               ∧ (∀ s : String, j ≠ Json.str s) ∧ jsToString j = "")))
  ∧ (∀ (fields : List String) (raw : Json) (key : String) (v : Option Json),
        (key, v) ∈ Part002.normalizeRaw fields raw →
        ((v = none ↔ (jsGet raw key = none ∨ jsGet raw key = some Json.null))
         ∧ (∀ j : Json, jsGet raw key = some j → j ≠ Json.null → v = some j))) := by
  constructor
  · intro fields raw key v hmem
    obtain ⟨k, hk, hkv⟩ := List.mem_map.mp hmem
    obtain ⟨rfl, rfl⟩ : k = key ∧ v = normalizeVal (jsGet raw k) :=
      ⟨congrArg Prod.fst hkv, (congrArg Prod.snd hkv).symm⟩
    rcases hj : jsGet raw k with _ | j
    · simp [normalizeVal]
    · cases j with
      | null => simp [normalizeVal]
      | bool b => simp [normalizeVal, jsIsEmptyString]
      | num n => simp [normalizeVal, jsIsEmptyString]
      | str s =>
          by_cases hs : s = ""
          · subst hs; simp [normalizeVal, jsIsEmptyString]
          · simp [normalizeVal, jsIsEmptyString, hs, jsToString]
      | arr elems => simp [normalizeVal, jsIsEmptyString]
      | obj kvs => simp [normalizeVal, jsIsEmptyString]
  · intro fields raw key v hmem
    obtain ⟨k, hk, hkv⟩ := List.mem_map.mp hmem
    obtain ⟨rfl, rfl⟩ :
        k = key ∧ v = (match jsGet raw k with
                       | none => none
                       | some Json.null => none
                       | some w => some w) :=
      ⟨congrArg Prod.fst hkv, (congrArg Prod.snd hkv).symm⟩
    rcases hj : jsGet raw k with _ | j
    · simp
    · cases j <;> simp

/-- Witness for C4: the primary loop on the raw object mapping "Insured" to an
empty array produces the pair with the empty-string value and satisfies the
amended characterization there; the `Part002` loop on a raw empty string for
"Policy No" stores that empty string verbatim. -/
theorem normalize_empty_amended_witness :
    (("Insured", (some "" : Option String))
        ∈ normalizeRaw ["Insured"] (Json.obj [("Insured", Json.arr [])])
      ∧ (((some "" : Option String) = none ↔
           (jsGet (Json.obj [("Insured", Json.arr [])]) "Insured" = none
            ∨ jsGet (Json.obj [("Insured", Json.arr [])]) "Insured" = some Json.null
            ∨ jsGet (Json.obj [("Insured", Json.arr [])]) "Insured" = some (Json.str "")))
         ∧ (∀ s : String,
              jsGet (Json.obj [("Insured", Json.arr [])]) "Insured" = some (Json.str s) →
              s ≠ "" → (some "" : Option String) = some s)
         ∧ ((some "" : Option String) = some "" →
             ∃ j : Json, jsGet (Json.obj [("Insured", Json.arr [])]) "Insured" = some j
               ∧ j ≠ Json.null ∧ (∀ s : String, j ≠ Json.str s) ∧ jsToString j = "")))
    ∧ (("Policy No", (some (Json.str "") : Option Json))
        ∈ Part002.normalizeRaw ["Policy No"] (Json.obj [("Policy No", Json.str "")])
      ∧ (((some (Json.str "") : Option Json) = none ↔
           (jsGet (Json.obj [("Policy No", Json.str "")]) "Policy No" = none
            ∨ jsGet (Json.obj [("Policy No", Json.str "")]) "Policy No" = some Json.null))
         ∧ (∀ j : Json,
              jsGet (Json.obj [("Policy No", Json.str "")]) "Policy No" = some j →
              j ≠ Json.null → (some (Json.str "") : Option Json) = some j))) :=
  ⟨⟨by decide,
    normalize_empty_amended.1 ["Insured"] (Json.obj [("Insured", Json.arr [])])
      "Insured" (some "") (by decide)⟩,
   ⟨List.mem_singleton.mpr rfl,
    normalize_empty_amended.2 ["Policy No"] (Json.obj [("Policy No", Json.str "")])
      "Policy No" (some (Json.str "")) (List.mem_singleton.mpr rfl)⟩⟩

/-- Counterexample for C5: in the primary `src/services/extractionApi.ts`, a
raw response that parses to the empty JSON object is not rejected —
`extractDataApi` returns a record with every QLM field set to the absence
marker. -/
theorem empty_object_accepted_in_primary :
    ExtractionApi.extractDataApi ⟨"a.pdf", "application/pdf", 10⟩ PayerPlan.QLM "k"
      ⟨Except.ok (some "fid"),
       Except.ok (ExtractionApi.GenOut.text (ParseOutcome.parsed (Json.obj [])))⟩
    = (Except.ok [("Insured", none),
        ("Policy No", none), ("Period of Insurance", none), ("Plan", none),
        ("For Eligible Medical Expenses at Al Ahli Hospital", none),
        ("Inpatient Deductible", none),
        ("Deductible per each outpatient consultation", none),
        ("Vaccination of children", none), ("Psychiatric Treatment", none),
        ("Dental Copayment", none), ("Maternity Copayment", none),
        ("Optical Copayment", none)],
       [NetCall.upload, NetCall.generate]) := by rfl

/-- C5 (amended): only the `Part000` variant treats a response parsing to the
zero-key object as an unreadable-document error (its message wrapped by the
enclosing parse-failure handler); the primary `extractDataApi` of
`src/services/extractionApi.ts` accepts the empty object and returns the
record with every field set to the absence marker. -/
theorem empty_object_by_variant :
    (∀ fields : List String,
        Part000.parseValidate fields (ParseOutcome.parsed (Json.obj []))
          = Except.error ("Invalid document: Failed to parse extracted data from PDF: " ++
              "Invalid document: The PDF file appears to be corrupted or unreadable."))
  ∧ (∀ (file : File) (plan : PayerPlan) (apiKey fid : String)
        (env : ExtractionApi.NetEnv),
        jsIncludes file.type "pdf" = true → apiKey ≠ "" →
        env.uploadResult = Except.ok (some fid) →
        env.generateResult = Except.ok (ExtractionApi.GenOut.text
          (ParseOutcome.parsed (Json.obj []))) →
        ExtractionApi.extractDataApi file plan apiKey env
          = (Except.ok (allNoneRecord (ExtractionApi.FIELD_MAPPINGS plan)),
             [NetCall.upload, NetCall.generate])) := by
  constructor
  · intro fields
    rfl
  · intro file plan apiKey fid env hpdf hkey hup hgen
    rw [ExtractionApi.extractDataApi, ExtractionApi.callOpenAIWithPDF, hpdf, hup, hgen]
    simp [hkey, allNoneRecord, normalizeRaw, jsGet, lookupJson, normalizeVal]

/-- Witness for C5: an ALKOOT extraction whose response parses to the empty
object succeeds with the all-absent record. -/
theorem empty_object_by_variant_witness :
    (jsIncludes "application/pdf" "pdf" = true ∧ ("k" : String) ≠ "")
    ∧ ExtractionApi.extractDataApi ⟨"b.pdf", "application/pdf", 9⟩ PayerPlan.ALKOOT "k"
        ⟨Except.ok (some "f1"),
         Except.ok (ExtractionApi.GenOut.text (ParseOutcome.parsed (Json.obj [])))⟩
      = (Except.ok (allNoneRecord (ExtractionApi.FIELD_MAPPINGS PayerPlan.ALKOOT)),
         [NetCall.upload, NetCall.generate]) :=
  ⟨⟨by decide, by decide⟩,
   empty_object_by_variant.2 ⟨"b.pdf", "application/pdf", 9⟩ PayerPlan.ALKOOT "k" "f1"
     ⟨Except.ok (some "f1"),
      Except.ok (ExtractionApi.GenOut.text (ParseOutcome.parsed (Json.obj [])))⟩
     (by decide) (by decide) rfl rfl⟩

/-- Counterexample for C6: the QLM field list of the primary
`src/services/extractionApi.ts` has 12 fields, not 20, does not contain
"Patient Name", and normalizing the claim's raw response under it yields a
record of 12 absence markers without any "Patient Name" key. -/
theorem qlm_list_differs_in_primary :
    ExtractionApi.QLM_FIELDS.length = 12
    ∧ ExtractionApi.QLM_FIELDS.contains "Patient Name" = false
    ∧ normalizeRaw ExtractionApi.QLM_FIELDS
        (Json.obj [("Patient Name", Json.str "John Doe")])
      = [("Insured", none),
         ("Policy No", none), ("Period of Insurance", none), ("Plan", none),
         ("For Eligible Medical Expenses at Al Ahli Hospital", none),
         ("Inpatient Deductible", none),
         ("Deductible per each outpatient consultation", none),
         ("Vaccination of children", none), ("Psychiatric Treatment", none),
         ("Dental Copayment", none), ("Maternity Copayment", none),
         ("Optical Copayment", none)] := by decide

/-- C6 (amended): the 20-field QLM list belongs to the `Part000` variant; its
`extractDataApi` on the raw response mapping "Patient Name" to "John Doe"
returns that value for "Patient Name" and the absence marker for the other 19
fields. -/
theorem part000_patient_name_scenario :
    Part000.QLM_FIELDS.length = 20
    ∧ Part000.extractDataApi ⟨"a.pdf", "application/pdf", 10⟩ PayerPlan.QLM "k"
        ⟨Except.ok "fid",
         Except.ok (Part000.ChatOut.content (ParseOutcome.parsed
           (Json.obj [("Patient Name", Json.str "John Doe")])))⟩
      = (Except.ok [("Patient Name", some "John Doe"),
          ("Patient ID", none), ("Date of Birth", none), ("Gender", none),
          ("Insurance Provider", none), ("Policy Number", none),
          ("Group Number", none), ("Member ID", none),
          ("Primary Care Physician", none), ("Specialist", none),
          ("Date of Service", none), ("Procedure Code", none),
          ("Diagnosis Code", none), ("Treatment Description", none),
          ("Total Amount", none), ("Copay Amount", none), ("Deductible", none),
          ("Coinsurance", none), ("Prior Authorization", none),
          ("Claim Number", none)],
         [NetCall.upload, NetCall.generate]) :=
  ⟨by decide, by rfl⟩

/-- C7: swapping the comparator's two input records swaps `file1Value` and
`file2Value` in every entry and leaves each entry's field and status
unchanged — the status classification is symmetric. -/
theorem compareRecords_swap (fields : List String) (d1 d2 : ExtractedData) :
    ExtractionApi.compareRecords fields d2 d1
      = (ExtractionApi.compareRecords fields d1 d2).map
          (fun r => { field := r.field, file1Value := r.file2Value,
                      file2Value := r.file1Value, status := r.status }) := by
  rw [ExtractionApi.compareRecords, ExtractionApi.compareRecords, List.map_map]
  apply List.map_congr_left
  intro f _
  rcases h1 : edGet d1 f with _ | s1 <;> rcases h2 : edGet d2 f with _ | s2 <;>
    simp_all [Function.comp_def]
  by_cases ht : jsTrim s1 = jsTrim s2
  · simp [ht]
  · simp [ht, Ne.symm ht]

/-- C8: the comparator emits exactly one entry per field of the plan's field
list, in the field list's order (the entry at position i carries the field at
position i); and a successful `compareDataApi` issues exactly the two
extractions' network calls and returns precisely `compareRecords` applied to
the two normalized records — a pure function of them. -/
theorem compare_order_and_purity :
    (∀ (fields : List String) (d1 d2 : ExtractedData),
        (ExtractionApi.compareRecords fields d1 d2).map ComparisonResult.field = fields)
  ∧ (∀ (f1 f2 : File) (plan : PayerPlan) (apiKey : String)
        (env1 env2 : ExtractionApi.NetEnv) (d1 d2 : ExtractedData)
        (c1 c2 : List NetCall),
        ExtractionApi.extractDataApi f1 plan apiKey env1 = (Except.ok d1, c1) →
        ExtractionApi.extractDataApi f2 plan apiKey env2 = (Except.ok d2, c2) →
        ExtractionApi.compareDataApi f1 f2 plan apiKey env1 env2
          = (Except.ok (ExtractionApi.compareRecords
              (ExtractionApi.FIELD_MAPPINGS plan) d1 d2), c1 ++ c2)) := by
  constructor
  · intro fields d1 d2
    rw [ExtractionApi.compareRecords, List.map_map]
    simp [Function.comp_def]
  · intro f1 f2 plan apiKey env1 env2 d1 d2 c1 c2 h1 h2
    rw [ExtractionApi.compareDataApi, extract_ok_pdf h1, extract_ok_pdf h2, h1, h2]
    simp

/-- Witness for C8: two concrete successful extractions drive `compareDataApi`
to the comparator's output with the concatenated call trace, and the entry
list of a concrete comparison carries the field list itself. -/
theorem compare_order_and_purity_witness :
    (ExtractionApi.compareRecords ["Plan"] [("Plan", some "A")] [("Plan", some "B")]).map
        ComparisonResult.field = ["Plan"]
    ∧ ExtractionApi.compareDataApi
        ⟨"a.pdf", "application/pdf", 4⟩ ⟨"b.pdf", "application/pdf", 5⟩
        PayerPlan.QLM "k"
        ⟨Except.ok (some "f1"),
         Except.ok (ExtractionApi.GenOut.text (ParseOutcome.parsed
           (Json.obj [("Insured", Json.str "a")])))⟩
        ⟨Except.ok (some "f2"),
         Except.ok (ExtractionApi.GenOut.text (ParseOutcome.parsed
           (Json.obj [("Insured", Json.str "b")])))⟩
      = (Except.ok (ExtractionApi.compareRecords (ExtractionApi.FIELD_MAPPINGS PayerPlan.QLM)
          (normalizeRaw ExtractionApi.QLM_FIELDS (Json.obj [("Insured", Json.str "a")]))
          (normalizeRaw ExtractionApi.QLM_FIELDS (Json.obj [("Insured", Json.str "b")]))),
         [NetCall.upload, NetCall.generate] ++ [NetCall.upload, NetCall.generate]) :=
  ⟨compare_order_and_purity.1 ["Plan"] [("Plan", some "A")] [("Plan", some "B")],
   compare_order_and_purity.2
     ⟨"a.pdf", "application/pdf", 4⟩ ⟨"b.pdf", "application/pdf", 5⟩
     PayerPlan.QLM "k"
     ⟨Except.ok (some "f1"),
      Except.ok (ExtractionApi.GenOut.text (ParseOutcome.parsed
        (Json.obj [("Insured", Json.str "a")])))⟩
     ⟨Except.ok (some "f2"),
      Except.ok (ExtractionApi.GenOut.text (ParseOutcome.parsed
        (Json.obj [("Insured", Json.str "b")])))⟩
     (normalizeRaw ExtractionApi.QLM_FIELDS (Json.obj [("Insured", Json.str "a")]))
     (normalizeRaw ExtractionApi.QLM_FIELDS (Json.obj [("Insured", Json.str "b")]))
     [NetCall.upload, NetCall.generate] [NetCall.upload, NetCall.generate]
     rfl rfl⟩

/-- C9: a file whose declared media type does not contain "pdf" makes
`extractDataApi` fail with the input-validation error and an empty network
trace; `compareDataApi` does the same when either file is not a PDF. -/
theorem invalid_file_type_no_network :
    (∀ (file : File) (plan : PayerPlan) (apiKey : String)
        (env : ExtractionApi.NetEnv),
        jsIncludes file.type "pdf" = false →
        ExtractionApi.extractDataApi file plan apiKey env
          = (Except.error "Invalid file type: Only PDF files are supported", []))
  ∧ (∀ (f1 f2 : File) (plan : PayerPlan) (apiKey : String)
        (env1 env2 : ExtractionApi.NetEnv),
        jsIncludes f1.type "pdf" = false ∨ jsIncludes f2.type "pdf" = false →
        ExtractionApi.compareDataApi f1 f2 plan apiKey env1 env2
          = (Except.error "Invalid file type: Both files must be PDFs", [])) := by
  constructor
  · intro file plan apiKey env hb
    rw [ExtractionApi.extractDataApi, hb]
    rfl
  · intro f1 f2 plan apiKey env1 env2 hb
    rcases hb with hb | hb <;> rw [ExtractionApi.compareDataApi, hb] <;> simp

/-- Witness for C9: a PNG media type is rejected by both entry points with an
empty call trace. -/
theorem invalid_file_type_no_network_witness :
    jsIncludes "image/png" "pdf" = false
    ∧ ExtractionApi.extractDataApi ⟨"x.png", "image/png", 3⟩ PayerPlan.QLM "k"
        ⟨Except.error "unused", Except.error "unused"⟩
      = (Except.error "Invalid file type: Only PDF files are supported", [])
    ∧ ExtractionApi.compareDataApi ⟨"x.png", "image/png", 3⟩
        ⟨"b.pdf", "application/pdf", 3⟩ PayerPlan.QLM "k"
        ⟨Except.error "unused", Except.error "unused"⟩
        ⟨Except.error "unused", Except.error "unused"⟩
      = (Except.error "Invalid file type: Both files must be PDFs", []) :=
  ⟨by decide,
   invalid_file_type_no_network.1 ⟨"x.png", "image/png", 3⟩ PayerPlan.QLM "k"
     ⟨Except.error "unused", Except.error "unused"⟩ (by decide),
   invalid_file_type_no_network.2 ⟨"x.png", "image/png", 3⟩
     ⟨"b.pdf", "application/pdf", 3⟩ PayerPlan.QLM "k"
     ⟨Except.error "unused", Except.error "unused"⟩
     ⟨Except.error "unused", Except.error "unused"⟩ (Or.inl (by decide))⟩

/-- C10: every comparison entry reports the two record values verbatim — its
`file1Value` and `file2Value` are exactly the records' values at the entry's
field, with trimming used only inside the status decision. -/
theorem compare_values_verbatim (fields : List String) (d1 d2 : ExtractedData)
    (r : ComparisonResult) (hr : r ∈ ExtractionApi.compareRecords fields d1 d2) :
    r.file1Value = edGet d1 r.field ∧ r.file2Value = edGet d2 r.field := by
  obtain ⟨f, hf, rfl⟩ := List.mem_map.mp hr
  exact ⟨rfl, rfl⟩

/-- Witness for C10: an entry built from a value with a trailing space reports
that value untrimmed. -/
theorem compare_values_verbatim_witness :
    ({ field := "Policy No", file1Value := some "123 ", file2Value := none,
       status := Status.missing } : ComparisonResult)
      ∈ ExtractionApi.compareRecords ["Policy No"]
          [("Policy No", some "123 ")] [("Policy No", none)]
    ∧ ({ field := "Policy No", file1Value := some "123 ", file2Value := none,
         status := Status.missing } : ComparisonResult).file1Value
        = edGet [("Policy No", some "123 ")] "Policy No"
    ∧ ({ field := "Policy No", file1Value := some "123 ", file2Value := none,
         status := Status.missing } : ComparisonResult).file2Value
        = edGet [("Policy No", none)] "Policy No" :=
  ⟨by decide,
   (compare_values_verbatim ["Policy No"]
     [("Policy No", some "123 ")] [("Policy No", none)]
     { field := "Policy No", file1Value := some "123 ", file2Value := none,
       status := Status.missing } (by decide)).1,
   (compare_values_verbatim ["Policy No"]
     [("Policy No", some "123 ")] [("Policy No", none)]
     { field := "Policy No", file1Value := some "123 ", file2Value := none,
       status := Status.missing } (by decide)).2⟩
